import Mathlib

/-!
Verification of the object-definition parser in `editor/object_toolbar.py`
(fife-editor-cegui).  The parsing functions of the module (`parse_file`,
`parse_atlas`, `parse_object`, `parse_actions`, `parse_animations`,
`parse_animation`, `parse_animation_atlas`) are embedded as Lean functions.

Modelling conventions:
* Python dictionaries are association lists (`alGet` reads, `alInsert`
  assigns, `dUpdate` is `dict.update`).
* Python runtime errors are the `PyError` type; a Python function that can
  raise is embedded as a function into `Except PyError`.
* The external XML library (lxml `etree.parse`) and the filesystem are
  oracles: `XmlEngine` maps raw file lines to a parsed document or an
  `XMLSyntaxError` with its reported line position, `FileSystem` maps a
  path to raw file lines.  Theorems quantify over these oracles; witnesses
  instantiate them with concrete tables.
* `os.path.join` / `os.path.abspath` / `os.path.dirname` are modelled as
  plain POSIX string operations with working directory `/` and without
  `..`-normalisation (no claim depends on normalisation).
* Python recursion (the animation `source` redirect) is modelled with
  explicit fuel; exhausted fuel is `recursionError`, mirroring Python's
  recursion limit.
-/

namespace FifeObjectToolbar

/-- Python runtime errors that the parsing code can raise.
`xmlSyntaxError` carries `e.position[0]`, the line number reported by
lxml. -/
inductive PyError where
  | xmlSyntaxError (line : Nat)
  | keyError (key : String)
  | valueError (literal : String)
  | indexError
  | attributeError
  | runtimeError (msg : String)
  | ioError
  | recursionError
  deriving Repr, DecidableEq

/-- Dictionary read: value at the first occurrence of key `k`. -/
def alGet {α β : Type} [BEq α] (l : List (α × β)) (k : α) : Option β :=
  (l.find? (fun p => p.1 == k)).map (fun p => p.2)

/-- Dictionary assignment `d[k] = v`: replace the first binding of `k`,
or append a new binding. -/
def alInsert {α β : Type} [BEq α] : List (α × β) → α → β → List (α × β)
  | [], k, v => [(k, v)]
  | p :: rest, k, v =>
    if p.1 == k then (k, v) :: rest else p :: alInsert rest k v

/-- Python `d.update(other)`: assign every binding of `other` into `d`. -/
def dUpdate {α β : Type} [BEq α] (d other : List (α × β)) : List (α × β) :=
  other.foldl (fun acc p => alInsert acc p.1 p.2) d

/-- Python list indexing `l[i]` for a non-negative index:
`IndexError` when out of range. -/
def pyIndex {α : Type} (l : List α) (i : Nat) : Except PyError α :=
  match l.get? i with
  | some v => .ok v
  | none => .error .indexError

/-- Python dictionary subscript `d[k]`: `KeyError` when the key is absent. -/
def pyDGet {β : Type} (d : List (String × β)) (k : String) : Except PyError β :=
  match alGet d k with
  | some v => .ok v
  | none => .error (.keyError k)

/-- Helper for `pySplit`, working on the character list. -/
def pySplitAux (sep : Char) : List Char → List (List Char)
  | [] => [[]]
  | c :: rest =>
    if c = sep then [] :: pySplitAux sep rest
    else
      match pySplitAux sep rest with
      | [] => [[c]]
      | g :: gs => (c :: g) :: gs

/-- Python `s.split(sep)` for a one-character separator. -/
def pySplit (s : String) (sep : Char) : List String :=
  (pySplitAux sep s.data).map (fun cs => String.mk cs)

/-- Python `s.replace(c, "")`: delete every occurrence of the character. -/
def pyRemoveChar (s : String) (c : Char) : String :=
  String.mk (s.data.filter (fun d => d ≠ c))

/-- Python `s.lower()`. -/
def pyLower (s : String) : String :=
  String.mk (s.data.map Char.toLower)

/-- Python `s.strip()`. -/
def pyStrip (s : String) : String :=
  String.mk (((s.data.dropWhile Char.isWhitespace).reverse.dropWhile
    Char.isWhitespace).reverse)

/-- Value of a non-empty all-digit character list, `none` otherwise. -/
def digitsVal (cs : List Char) : Option Nat :=
  if cs = [] then none
  else if cs.all Char.isDigit then
    some (cs.foldl (fun acc c => 10 * acc + (c.toNat - 48)) 0)
  else none

/-- Python `int(s)`: strip whitespace, optional sign, decimal digits;
`ValueError` otherwise. -/
def pyInt (s : String) : Except PyError Int :=
  let t := (pyStrip s).data
  let signed : Option Int :=
    match t with
    | '-' :: ds => (digitsVal ds).map (fun n => -(n : Int))
    | '+' :: ds => (digitsVal ds).map (fun n => (n : Int))
    | ds => (digitsVal ds).map (fun n => (n : Int))
  match signed with
  | some v => .ok v
  | none => .error (.valueError s)

/-- Does the string start with the given character? -/
def strStarts (s : String) (c : Char) : Bool :=
  match s.data with
  | [] => false
  | d :: _ => d = c

/-- Does the string end with a slash? -/
def strEndsSlash (s : String) : Bool :=
  match s.data.getLast? with
  | some c => c = '/'
  | none => false

/-- Simplified POSIX model of `os.path.join` for two components. -/
def ospJoin (a b : String) : String :=
  if strStarts b '/' then b
  else if a = "" then b
  else if strEndsSlash a then a ++ b
  else a ++ "/" ++ b

/-- Join path components back with slashes. -/
def joinWithSlash : List String → String
  | [] => ""
  | [s] => s
  | s :: rest => s ++ "/" ++ joinWithSlash rest

/-- Simplified POSIX model of `os.path.dirname`. -/
def ospDirname (p : String) : String :=
  let parts := pySplit p '/'
  if parts.length ≤ 1 then "" else joinWithSlash parts.dropLast

/-- Simplified model of `os.path.abspath` with working directory `/` and
no normalisation. -/
def ospAbspath (p : String) : String :=
  if strStarts p '/' then p else "/" ++ p

/-- Python slice `l[:i]` (the index may be negative). -/
def pySliceTo {α : Type} (l : List α) (i : Int) : List α :=
  if 0 ≤ i then l.take i.toNat else l.take (((l.length : Int) + i).toNat)

/-- Python slice `l[i:]` (the index may be negative). -/
def pySliceFrom {α : Type} (l : List α) (i : Int) : List α :=
  if 0 ≤ i then l.drop i.toNat else l.drop (((l.length : Int) + i).toNat)

/-- An lxml etree element: tag, attribute dictionary, child elements. -/
inductive Element : Type where
  | mk (tag : String) (attrib : List (String × String))
       (children : List Element)

/-- The element's tag. -/
def Element.tag : Element → String
  | .mk t _ _ => t

/-- The element's attribute dictionary. -/
def Element.attrib : Element → List (String × String)
  | .mk _ a _ => a

/-- The element's direct children. -/
def Element.children : Element → List Element
  | .mk _ _ c => c

/-- lxml `element.findall(t)`: direct children with the given tag. -/
def Element.findall (e : Element) (t : String) : List Element :=
  e.children.filter (fun c => c.tag == t)

/-- Result of a successful `etree.parse`: the root element plus the text
of `root.getprevious()` (the processing instruction or comment
immediately before the root, if any). -/
structure XmlDocument where
  root : Element
  prev : Option String

/-- Filesystem oracle: path to raw file lines (each line keeps its
newline, as Python `readlines` yields them). -/
def FileSystem : Type := String → Option (List String)

/-- XML engine oracle, modelling lxml `etree.parse` applied to raw text
given as a list of lines. -/
def XmlEngine : Type := List String → Except PyError XmlDocument

/-- `etree.parse(path)`: read the file, then parse its text; a missing
file is an IO error. -/
def etreeParseFile (xp : XmlEngine) (fs : FileSystem) (filename : String) :
    Except PyError XmlDocument :=
  match fs filename with
  | some ls => xp ls
  | none => .error .ioError

/-- The spec's `MalformedDefinition` family: the code signals a missing
required attribute with `KeyError` and a malformed colon-id or a missing
element with `IndexError`. -/
def isMalformedDefinition : PyError → Bool
  | .keyError _ => true
  | .indexError => true
  | _ => false

/-- Result dictionary of `parse_animation` (multi-frame kind).  Each field
is `some` exactly when the Python dictionary carries the key. -/
structure AniDef where
  delay : Option String
  direction : Option String
  frames : Option (List String)
  x_offset : Option String
  y_offset : Option String
  deriving Repr, DecidableEq

/-- Python `dict.update` on the keys of an `AniDef`: bindings present in
`other` overwrite those of `d`. -/
def aniUpdate (d other : AniDef) : AniDef :=
  { delay := match other.delay with
      | some v => some v
      | none => d.delay
    direction := match other.direction with
      | some v => some v
      | none => d.direction
    frames := match other.frames with
      | some v => some v
      | none => d.frames
    x_offset := match other.x_offset with
      | some v => some v
      | none => d.x_offset
    y_offset := match other.y_offset with
      | some v => some v
      | none => d.y_offset }

/-- A direction-keyed entry of an action's animation dictionary: either a
multi-frame animation definition (line 170 of the source) or a per
direction delay/frame-count pair of the atlas kind (lines 223-225). -/
inductive AniEntry where
  | multiEntry (ani : AniDef)
  | atlasDirEntry (delay : String) (frames : String)
  deriving Repr, DecidableEq

/-- The `atlas` sub-dictionary built by `parse_animation_atlas`
(lines 215-219): absolute image path and frame cell size. -/
structure AtlasImage where
  image : String
  width : String
  height : String
  deriving Repr, DecidableEq

/-- Result dictionary of `parse_animations`. -/
structure AnisDef where
  type : String
  atlas : Option AtlasImage
  directions : List (Int × AniEntry)
  deriving Repr, DecidableEq

/-- Result dictionary of `parse_animation_atlas`. -/
structure AtlasAniDef where
  atlas : AtlasImage
  directions : List (Int × AniEntry)
  deriving Repr, DecidableEq

/-- Result dictionary of `parse_atlas`: the atlas element itself plus the
image-source-name to image-element index. -/
structure AtlasDef where
  atlas : Element
  images : List (String × Element)

/-- Result dictionary of `parse_object`. -/
structure ObjDef where
  object : List (String × String)
  actions : Option (List (String × AnisDef))
  directions : Option (List (Int × List (String × String)))
  deriving Repr, DecidableEq

/-- Frame-collecting loop of `parse_animation` (lines 193-197): each
frame child's `source`, joined against the base path and made absolute,
in document order. -/
def framesLoop (root_path : String) :
    List Element → List String → Except PyError (List String)
  | [], acc => .ok acc
  | f :: rest, acc =>
    match pyDGet f.attrib "source" with
    | .error e => .error e
    | .ok src =>
      framesLoop root_path rest (acc ++ [ospAbspath (ospJoin root_path src)])

/-- `parse_animation` (lines 174-202).  A `source` attribute redirects to
an external animation file whose root supplies `delay` and is parsed
recursively; otherwise the element carries inline frames, a
colon-delimited `id` whose third segment is the direction, and offsets. -/
def parse_animation (xp : XmlEngine) (fs : FileSystem) :
    Nat → Element → String → Except PyError AniDef
  | fuel, animation, root_path =>
    match alGet animation.attrib "source" with
    | some animation_file =>
      match fuel with
      | 0 => .error .recursionError
      | Nat.succ fuel' =>
        let ani_file := ospJoin root_path animation_file
        let ani_path := ospDirname ani_file
        match etreeParseFile xp fs ani_file with
        | .error e => .error e
        | .ok doc =>
          match pyDGet doc.root.attrib "delay" with
          | .error e => .error e
          | .ok delay =>
            match parse_animation xp fs fuel' doc.root ani_path with
            | .error e => .error e
            | .ok inner =>
              .ok (aniUpdate
                { delay := some delay, direction := none, frames := none,
                  x_offset := none, y_offset := none } inner)
    | none =>
      match framesLoop root_path (animation.findall "frame") [] with
      | .error e => .error e
      | .ok frames =>
        match pyDGet animation.attrib "id" with
        | .error e => .error e
        | .ok idv =>
          match pyIndex (pySplit idv ':') 2 with
          | .error e => .error e
          | .ok direction =>
            match pyDGet animation.attrib "x_offset" with
            | .error e => .error e
            | .ok xo =>
              match pyDGet animation.attrib "y_offset" with
              | .error e => .error e
              | .ok yo =>
                .ok { delay := none, direction := some direction,
                      frames := some frames, x_offset := some xo,
                      y_offset := some yo }

/-- One iteration of the multi-frame loop of `parse_animations`
(lines 167-170): parse the animation, then key it by its integer
direction. -/
def parse_multi_entry (xp : XmlEngine) (fs : FileSystem) (fuel : Nat)
    (root_path : String) (animation : Element) :
    Except PyError (Int × AniEntry) :=
  match parse_animation xp fs fuel animation root_path with
  | .error e => .error e
  | .ok ani_def =>
    match ani_def.direction with
    | none => .error (.keyError "direction")
    | some dstr =>
      match pyInt dstr with
      | .error e => .error e
      | .ok d => .ok (d, .multiEntry ani_def)

/-- One iteration of the direction loop of `parse_animation_atlas`
(lines 221-225): integer `dir` key, `delay` and `frames` attributes. -/
def parse_atlas_direction (direction : Element) :
    Except PyError (Int × AniEntry) :=
  match pyDGet direction.attrib "dir" with
  | .error e => .error e
  | .ok ds =>
    match pyInt ds with
    | .error e => .error e
    | .ok d =>
      match pyDGet direction.attrib "delay" with
      | .error e => .error e
      | .ok delay =>
        match pyDGet direction.attrib "frames" with
        | .error e => .error e
        | .ok frames => .ok (d, .atlasDirEntry delay frames)

/-- Shared shape of the three direction/source keyed `for` loops: parse
each element and assign the result into the accumulated dictionary. -/
def dictLoop {β : Type} (f : Element → Except PyError (Int × β)) :
    List Element → List (Int × β) → Except PyError (List (Int × β))
  | [], acc => .ok acc
  | x :: rest, acc =>
    match f x with
    | .error e => .error e
    | .ok kv => dictLoop f rest (alInsert acc kv.1 kv.2)

/-- `parse_animation_atlas` (lines 205-226). -/
def parse_animation_atlas (animation : Element) (root_path : String) :
    Except PyError AtlasAniDef :=
  match pyDGet animation.attrib "atlas" with
  | .error e => .error e
  | .ok atlasAttr =>
    let image := ospAbspath (ospJoin root_path atlasAttr)
    match pyDGet animation.attrib "width" with
    | .error e => .error e
    | .ok w =>
      match pyDGet animation.attrib "height" with
      | .error e => .error e
      | .ok h =>
        match dictLoop parse_atlas_direction
            (animation.findall "direction") [] with
        | .error e => .error e
        | .ok dirs =>
          .ok { atlas := { image := image, width := w, height := h },
                directions := dirs }

/-- `parse_animations` (lines 150-171): unconditional `animations[0]`
lookup, then the single-atlas branch when the first element carries an
`atlas` attribute, else the multi-frame loop over all elements. -/
def parse_animations (xp : XmlEngine) (fs : FileSystem) (fuel : Nat)
    (animations : List Element) (root_path : String) :
    Except PyError AnisDef :=
  match pyIndex animations 0 with
  | .error e => .error e
  | .ok first =>
    if (alGet first.attrib "atlas").isSome then
      match parse_animation_atlas first root_path with
      | .error e => .error e
      | .ok res =>
        .ok { type := "single", atlas := some res.atlas,
              directions := res.directions }
    else
      match dictLoop (parse_multi_entry xp fs fuel root_path)
          animations [] with
      | .error e => .error e
      | .ok dirs =>
        .ok { type := "multi", atlas := none, directions := dirs }

/-- Loop of `parse_actions` (lines 144-146): animations are parsed before
the action's `id` is read. -/
def actionsLoop (xp : XmlEngine) (fs : FileSystem) (fuel : Nat) :
    List Element → String → List (String × AnisDef) →
    Except PyError (List (String × AnisDef))
  | [], _, acc => .ok acc
  | action :: rest, root_path, acc =>
    match parse_animations xp fs fuel (action.findall "animation")
        root_path with
    | .error e => .error e
    | .ok anis =>
      match pyDGet action.attrib "id" with
      | .error e => .error e
      | .ok idv =>
        actionsLoop xp fs fuel rest root_path (alInsert acc idv anis)

/-- `parse_actions` (lines 134-147). -/
def parse_actions (xp : XmlEngine) (fs : FileSystem) (fuel : Nat)
    (actions : List Element) (root_path : String) :
    Except PyError (List (String × AnisDef)) :=
  actionsLoop xp fs fuel actions root_path []

/-- Image loop of `parse_atlas` (lines 85-89): key each image child by
its `source` attribute. -/
def atlasImagesLoop :
    List Element → List (String × Element) →
    Except PyError (List (String × Element))
  | [], acc => .ok acc
  | image :: rest, acc =>
    match pyDGet image.attrib "source" with
    | .error e => .error e
    | .ok name => atlasImagesLoop rest (alInsert acc name image)

/-- `parse_atlas` (lines 71-90).  `root_path` is accepted and ignored, as
in the source. -/
def parse_atlas (element : Element) (root_path : String) :
    Except PyError AtlasDef :=
  match atlasImagesLoop (element.findall "image") [] with
  | .error e => .error e
  | .ok imgs => .ok { atlas := element, images := imgs }

/-- Lines 119-124 of `parse_object`: when the image's `source` is a key
of the atlas index, merge the atlas image's attributes into the copied
attribute dictionary, tag its type `atlas` and rewrite `source` to the
atlas element's `name`; otherwise tag its type `image`.  (With no atlas
supplied the index is empty, so the lookup always misses.) -/
def reconcile_image (atlas_def : Option AtlasDef) (image : Element)
    (source : String) : Except PyError (List (String × String)) :=
  match atlas_def with
  | some ad =>
    match alGet ad.images source with
    | some srcImage =>
      match pyDGet ad.atlas.attrib "name" with
      | .error e => .error e
      | .ok nm =>
        .ok (alInsert
          (alInsert (dUpdate image.attrib srcImage.attrib) "type" "atlas")
          "source" nm)
    | none => .ok (alInsert image.attrib "type" "image")
  | none => .ok (alInsert image.attrib "type" "image")

/-- Body of the static-image loop of `parse_object` (lines 116-128):
copy the image's attributes, reconcile with the atlas index, resolve
`source` to an absolute path, key by integer `direction`. -/
def parse_image_def (root_path : String) (atlas_def : Option AtlasDef)
    (image : Element) :
    Except PyError (Int × List (String × String)) :=
  match pyDGet image.attrib "source" with
  | .error e => .error e
  | .ok source =>
    match reconcile_image atlas_def image source with
    | .error e => .error e
    | .ok image_def =>
      match pyDGet image_def "source" with
      | .error e => .error e
      | .ok s2 =>
        match pyDGet (alInsert image_def "source"
            (ospAbspath (ospJoin root_path s2))) "direction" with
        | .error e => .error e
        | .ok dstr =>
          match pyInt dstr with
          | .error e => .error e
          | .ok d =>
            .ok (d, alInsert image_def "source"
              (ospAbspath (ospJoin root_path s2)))

/-- `parse_object` (lines 93-131).  `static == 0` delegates to
`parse_actions`; `static == 1` runs the image loop; anything else raises
`RuntimeError` naming the tag of `obj[0]`, the object's FIRST CHILD
(an `IndexError` when there is none). -/
def parse_object (xp : XmlEngine) (fs : FileSystem) (fuel : Nat)
    (obj : Element) (root_path : String) (atlas_def : Option AtlasDef) :
    Except PyError ObjDef :=
  match pyDGet obj.attrib "static" with
  | .error e => .error e
  | .ok staticStr =>
    match pyInt staticStr with
    | .error e => .error e
    | .ok staticVal =>
      if staticVal = 0 then
        match parse_actions xp fs fuel (obj.findall "action") root_path with
        | .error e => .error e
        | .ok acts =>
          .ok { object := obj.attrib, actions := some acts,
                directions := none }
      else if staticVal = 1 then
        match dictLoop (parse_image_def root_path atlas_def)
            (obj.findall "image") [] with
        | .error e => .error e
        | .ok dirs =>
          .ok { object := obj.attrib, actions := none,
                directions := some dirs }
      else
        match pyIndex obj.children 0 with
        | .error e => .error e
        | .ok firstChild =>
          .error (.runtimeError
            ("Don't know how to handle '" ++ firstChild.tag ++ "'"))

/-- Object loop in the recovery branch of `parse_file` (lines 66-67). -/
def parse_objects_list (xp : XmlEngine) (fs : FileSystem) (fuel : Nat) :
    List Element → String → Option AtlasDef →
    Except PyError (List ObjDef)
  | [], _, _ => .ok []
  | o :: rest, root_path, ad =>
    match parse_object xp fs fuel o root_path ad with
    | .error e => .error e
    | .ok d =>
      match parse_objects_list xp fs fuel rest root_path ad with
      | .error e => .error e
      | .ok ds => .ok (d :: ds)

/-- Line 56: `pi.text.split("=")[1].replace('"', '').lower()`. -/
def pi_file_type (t : String) : Except PyError String :=
  match pyIndex (pySplit t '=') 1 with
  | .error e => .error e
  | .ok seg => .ok (pyLower (pyRemoveChar seg '"'))

/-- The `try` block of `parse_file` (lines 46-47): parse the whole file
and emit one object definition from its root. -/
def parse_file_attempt (xp : XmlEngine) (fs : FileSystem) (fuel : Nat)
    (filename root_path : String) : Except PyError (List ObjDef) :=
  match etreeParseFile xp fs filename with
  | .error e => .error e
  | .ok doc =>
    match parse_object xp fs fuel doc.root root_path none with
    | .error e => .error e
    | .ok d => .ok [d]

/-- The `except etree.XMLSyntaxError` block of `parse_file`
(lines 49-67): slice the raw lines at `e.position[0] - 2`, re-parse the
first slice (whose preceding processing instruction must declare type
`atlas`), build the atlas index, wrap the remaining lines in a synthetic
`objects` root, and parse each `object` child. -/
def parse_file_recover (xp : XmlEngine) (fs : FileSystem) (fuel : Nat)
    (filename root_path : String) (pos : Nat) :
    Except PyError (List ObjDef) :=
  match fs filename with
  | none => .error .ioError
  | some lines =>
    match xp (pySliceTo lines ((pos : Int) - 2)) with
    | .error e => .error e
    | .ok doc =>
      match doc.prev with
      | none => .error .attributeError
      | some piText =>
        match pi_file_type piText with
        | .error e => .error e
        | .ok file_type =>
          if file_type = "atlas" then
            match parse_atlas doc.root root_path with
            | .error e => .error e
            | .ok atlas_def =>
              match xp ("<objects>\n" ::
                  (pySliceFrom lines ((pos : Int) - 2 + 1) ++
                    ["</objects>\n"])) with
              | .error e => .error e
              | .ok doc2 =>
                parse_objects_list xp fs fuel
                  (doc2.root.findall "object") root_path (some atlas_def)
          else
            .error (.runtimeError
              ("Unexpected file format '" ++ filename ++ "'"))

/-- `parse_file` (lines 34-68): try the direct parse; recover through the
dual-document path exactly when the `try` block raised `XMLSyntaxError`;
re-raise every other error. -/
def parse_file (xp : XmlEngine) (fs : FileSystem) (fuel : Nat)
    (filename : String) : Except PyError (List ObjDef) :=
  match parse_file_attempt xp fs fuel filename (ospDirname filename) with
  | .ok objs => .ok objs
  | .error (.xmlSyntaxError pos) =>
    parse_file_recover xp fs fuel filename (ospDirname filename) pos
  | .error e => .error e

/-! ### Concrete sample inputs

Closed sample files, given as oracle tables for the `XmlEngine` and
`FileSystem` parameters, used by the witnesses and counterexamples. -/

/-- Trivial XML engine: every input is a syntax error at line 1. -/
def nullXp : XmlEngine := fun _ => .error (.xmlSyntaxError 1)

/-- Trivial filesystem: no file exists. -/
def nullFs : FileSystem := fun _ => none

/-- Single-document sample: root element of `/maps/single.xml`. -/
def singleRoot : Element :=
  .mk "object" [("id", "tree"), ("static", "1")]
    [.mk "image" [("source", "tree.png"), ("direction", "0")] []]

/-- Raw lines of `/maps/single.xml`. -/
def singleLines : List String :=
  ["<object id=\"tree\" static=\"1\">\n",
   "<image source=\"tree.png\" direction=\"0\"/>\n",
   "</object>\n"]

/-- XML engine table for the single-document sample. -/
def singleXp : XmlEngine := fun ls =>
  if ls = singleLines then .ok { root := singleRoot, prev := none }
  else .error (.xmlSyntaxError 1)

/-- Filesystem table for the single-document sample. -/
def singleFs : FileSystem := fun n =>
  if n = "/maps/single.xml" then some singleLines else none

/-- The object definition parsed from the single-document sample. -/
def singleDef : ObjDef :=
  { object := [("id", "tree"), ("static", "1")],
    actions := none,
    directions := some [(0,
      [("source", "/maps/tree.png"), ("direction", "0"),
       ("type", "image")])] }

/-- First atlas image of the dual-document sample. -/
def dualImg1 : Element :=
  .mk "image" [("source", "img1.png"), ("xpos", "0")] []

/-- Second atlas image of the dual-document sample. -/
def dualImg2 : Element :=
  .mk "image" [("source", "img2.png"), ("xpos", "32")] []

/-- Atlas root of the dual-document sample, declaring two images. -/
def dualAtlasRoot : Element :=
  .mk "atlas" [("name", "sheet.png")] [dualImg1, dualImg2]

/-- First bare object of the dual-document sample; its image's `source`
matches an atlas key. -/
def dualObj1 : Element :=
  .mk "object" [("id", "o1"), ("static", "1")]
    [.mk "image" [("source", "img1.png"), ("direction", "0")] []]

/-- Second bare object of the dual-document sample; its image's `source`
matches no atlas key. -/
def dualObj2 : Element :=
  .mk "object" [("id", "o2"), ("static", "1")]
    [.mk "image" [("source", "other.png"), ("direction", "0")] []]

/-- Root of the synthetic `<objects>` document of the dual sample. -/
def dualObjectsRoot : Element := .mk "objects" [] [dualObj1, dualObj2]

/-- Raw lines of `/maps/dual.xml`: processing instruction, atlas
document, a blank separator line, then two bare object elements. -/
def dualLines : List String :=
  ["<?fife type=\"atlas\"?>\n",
   "<atlas name=\"sheet.png\">\n",
   "<image source=\"img1.png\" xpos=\"0\"/>\n",
   "<image source=\"img2.png\" xpos=\"32\"/>\n",
   "</atlas>\n",
   "\n",
   "<object id=\"o1\" static=\"1\">\n",
   "<image source=\"img1.png\" direction=\"0\"/>\n",
   "</object>\n",
   "<object id=\"o2\" static=\"1\">\n",
   "<image source=\"other.png\" direction=\"0\"/>\n",
   "</object>\n"]

/-- XML engine table for the dual-document sample: the whole file is not
well-formed (extra content reported at line 7), the first five lines are
the atlas document preceded by the `fife` processing instruction, and
the wrapped remainder is the synthetic objects document. -/
def dualXp : XmlEngine := fun ls =>
  if ls = dualLines then .error (.xmlSyntaxError 7)
  else if ls = pySliceTo dualLines ((7 : Int) - 2) then
    .ok { root := dualAtlasRoot, prev := some "type=\"atlas\"" }
  else if ls = "<objects>\n" ::
      (pySliceFrom dualLines ((7 : Int) - 2 + 1) ++ ["</objects>\n"]) then
    .ok { root := dualObjectsRoot, prev := none }
  else .error (.xmlSyntaxError 1)

/-- Filesystem table for the dual-document sample. -/
def dualFs : FileSystem := fun n =>
  if n = "/maps/dual.xml" then some dualLines else none

/-- The atlas index parsed from the dual sample's atlas document. -/
def dualAtlasDef : AtlasDef :=
  { atlas := dualAtlasRoot,
    images := [("img1.png", dualImg1), ("img2.png", dualImg2)] }

/-- Object definition of `dualObj1` (atlas-reconciled image). -/
def dualDef1 : ObjDef :=
  { object := [("id", "o1"), ("static", "1")],
    actions := none,
    directions := some [(0,
      [("source", "/maps/sheet.png"), ("direction", "0"),
       ("xpos", "0"), ("type", "atlas")])] }

/-- Object definition of `dualObj2` (standalone image). -/
def dualDef2 : ObjDef :=
  { object := [("id", "o2"), ("static", "1")],
    actions := none,
    directions := some [(0,
      [("source", "/maps/other.png"), ("direction", "0"),
       ("type", "image")])] }

/-- Animation element of the trick sample, redirecting to `bad.xml`. -/
def trickAniEl : Element := .mk "animation" [("source", "bad.xml")] []

/-- Action element of the trick sample. -/
def trickActionEl : Element := .mk "action" [("id", "walk")] [trickAniEl]

/-- Root of `/maps/trick.xml`: a well-formed document (root tag `atlas`
carrying `static="0"`) whose animation redirects to a malformed file. -/
def trickRoot : Element :=
  .mk "atlas" [("name", "sheet.png"), ("static", "0")] [trickActionEl]

/-- Raw lines of `/maps/trick.xml` (7 lines; well-formed XML with a
trailing comment). -/
def trickLines : List String :=
  ["<?fife type=\"atlas\"?>\n",
   "<atlas name=\"sheet.png\" static=\"0\">\n",
   "<action id=\"walk\">\n",
   "<animation source=\"bad.xml\"/>\n",
   "</action>\n",
   "</atlas>\n",
   "<!-- trailing comment -->\n"]

/-- Raw lines of the malformed `/maps/bad.xml` (nine unclosed tags; its
syntax error is reported at line 9). -/
def badLines : List String := List.replicate 9 "<broken\n"

/-- XML engine table for the trick sample.  `trickLines` is well-formed;
`badLines` fails at line 9; slicing `trickLines` at `9 - 2 = 7` returns
the whole 7-line file, which parses again; the remainder is empty, so
the wrapped second document is an empty `objects` root. -/
def trickXp : XmlEngine := fun ls =>
  if ls = trickLines then
    .ok { root := trickRoot, prev := some "type=\"atlas\"" }
  else if ls = badLines then .error (.xmlSyntaxError 9)
  else if ls = ["<objects>\n", "</objects>\n"] then
    .ok { root := .mk "objects" [] [], prev := none }
  else .error (.xmlSyntaxError 1)

/-- Filesystem table for the trick sample. -/
def trickFs : FileSystem := fun n =>
  if n = "/maps/trick.xml" then some trickLines
  else if n = "/maps/bad.xml" then some badLines
  else none

/-- Root recovered from the first slice of `/maps/badpi.xml`. -/
def badpiInner : Element := .mk "x" [] []

/-- Raw lines of `/maps/badpi.xml`, whose processing instruction
declares `type="object"`, not `atlas`. -/
def badpiLines : List String :=
  ["<?fife type=\"object\"?>\n", "<x>\n", "</x>\n", "\n", "<y/>\n"]

/-- XML engine table for the bad-processing-instruction sample. -/
def badpiXp : XmlEngine := fun ls =>
  if ls = badpiLines then .error (.xmlSyntaxError 5)
  else if ls = pySliceTo badpiLines ((5 : Int) - 2) then
    .ok { root := badpiInner, prev := some "type=\"object\"" }
  else .error (.xmlSyntaxError 1)

/-- Filesystem table for the bad-processing-instruction sample. -/
def badpiFs : FileSystem := fun n =>
  if n = "/maps/badpi.xml" then some badpiLines else none

/-- Childless object element with `static="2"`. -/
def c5Childless : Element :=
  .mk "object" [("id", "broken"), ("static", "2")] []

/-- Object element with `static="2"` and one `image` child. -/
def c5WithChild : Element :=
  .mk "object" [("id", "broken"), ("static", "2")]
    [.mk "image" [("source", "a.png")] []]

/-- The image element of `dualObj1`, reused standalone for the atlas
reconciliation witness. -/
def c6Img : Element :=
  .mk "image" [("source", "img1.png"), ("direction", "0")] []

/-- The image dictionary produced for `c6Img` against the dual sample's
atlas index. -/
def c6IDef : List (String × String) :=
  [("source", "/maps/sheet.png"), ("direction", "0"),
   ("xpos", "0"), ("type", "atlas")]

/-- First direction child (dir 1) for the overwrite witness. -/
def w10Dir1 : Element :=
  .mk "direction" [("dir", "1"), ("delay", "50"), ("frames", "4")] []

/-- Second direction child with the SAME dir 1. -/
def w10Dir2 : Element :=
  .mk "direction" [("dir", "1"), ("delay", "70"), ("frames", "6")] []

/-- Atlas animation element with two children declaring equal `dir`. -/
def w10Ani : Element :=
  .mk "animation" [("atlas", "run.png"), ("width", "32"), ("height", "32")]
    [w10Dir1, w10Dir2]

/-- The animations dictionary parsed from `[w10Ani]` (single kind, the
duplicate direction overwritten). -/
def w7Res : AnisDef :=
  { type := "single",
    atlas := some { image := "/maps/run.png", width := "32",
                    height := "32" },
    directions := [(1, .atlasDirEntry "70" "6")] }

/-- Inline animation element whose id has only two colon segments. -/
def w8Ani : Element := .mk "animation" [("id", "walk:0")] []

/-- Action element with zero animation children. -/
def w9Action : Element := .mk "action" [("id", "idle")] []

/-! ### Dictionary lemmas -/

/-- Reading a cons cell: head binding first. -/
theorem alGet_cons {α β : Type} [BEq α] (x : α × β) (l : List (α × β))
    (k : α) :
    alGet (x :: l) k = if x.1 == k then some x.2 else alGet l k := by
  by_cases h : x.1 == k <;> simp [alGet, List.find?, h]

/-- Reading the key just assigned. -/
theorem alGet_alInsert_self {α β : Type} [BEq α] [LawfulBEq α]
    (l : List (α × β)) (k : α) (v : β) :
    alGet (alInsert l k v) k = some v := by
  induction l with
  | nil => simp [alInsert, alGet_cons]
  | cons p rest ih =>
    by_cases h : p.1 == k
    · simp [alInsert, h, alGet_cons]
    · simp [alInsert, h, alGet_cons, ih]

/-- Assigning one key leaves every other key unchanged. -/
theorem alGet_alInsert_ne {α β : Type} [BEq α] [LawfulBEq α]
    (l : List (α × β)) (k k' : α) (v : β) (h : k' ≠ k) :
    alGet (alInsert l k v) k' = alGet l k' := by
  induction l with
  | nil =>
    simp [alInsert, alGet_cons, alGet]
    intro hkk
    exact absurd hkk.symm h
  | cons p rest ih =>
    by_cases hp : p.1 == k
    · have hpk : p.1 = k := by simpa using hp
      rw [alInsert]
      simp only [hp, if_true]
      rw [alGet_cons, alGet_cons, hpk]
      have : (k == k') = false := by
        simpa using fun hkk => absurd hkk.symm h
      simp [this]
    · rw [alInsert]
      simp only [hp]
      rw [if_neg (by simp_all), alGet_cons, alGet_cons, ih]

/-- A key that occurs nowhere reads as `none`. -/
theorem alGet_eq_none {α β : Type} [BEq α] [LawfulBEq α]
    (l : List (α × β)) (k : α) (h : k ∉ l.map Prod.fst) :
    alGet l k = none := by
  induction l with
  | nil => rfl
  | cons p rest ih =>
    simp only [List.map_cons, List.mem_cons, not_or] at h
    rw [alGet_cons, if_neg, ih h.2]
    simpa using fun e => absurd e.symm h.1

/-- `dict.update` semantics on any key, for an update list with distinct
keys: a key of the update wins, other keys are left alone. -/
theorem alGet_dUpdate {α β : Type} [BEq α] [LawfulBEq α]
    (o : List (α × β)) (hnd : (o.map Prod.fst).Nodup) :
    ∀ (d : List (α × β)) (k : α),
    alGet (dUpdate d o) k =
      match alGet o k with
      | some v => some v
      | none => alGet d k := by
  induction o with
  | nil => intro d k; rfl
  | cons p o' ih =>
    intro d k
    simp only [List.map_cons, List.nodup_cons] at hnd
    obtain ⟨hnotin, hnd'⟩ := hnd
    have hstep : dUpdate d (p :: o') = dUpdate (alInsert d p.1 p.2) o' :=
      rfl
    rw [hstep, ih hnd', alGet_cons]
    by_cases hk : p.1 == k
    · have hk' : p.1 = k := by simpa using hk
      have hnone : alGet o' k = none := by
        apply alGet_eq_none
        rw [← hk']
        exact hnotin
      rw [hnone, hk']
      simp [alGet_alInsert_self, hk]
    · have hk' : p.1 ≠ k := by simpa using hk
      rw [alGet_alInsert_ne _ _ _ _ (fun e => hk' e.symm)]
      simp [hk]

/-! ### Loop lemmas -/

/-- The keyed loops distribute over list append. -/
theorem dictLoop_append {β : Type} (f : Element → Except PyError (Int × β))
    (l1 l2 : List Element) (acc : List (Int × β)) :
    dictLoop f (l1 ++ l2) acc =
      match dictLoop f l1 acc with
      | .error e => .error e
      | .ok m => dictLoop f l2 m := by
  induction l1 generalizing acc with
  | nil => rfl
  | cons x rest ih =>
    simp only [List.cons_append, dictLoop]
    cases f x with
    | error e => rfl
    | ok kv => exact ih _

/-- `dictLoop_append`, specialised to a succeeding first segment. -/
theorem dictLoop_append_ok {β : Type}
    (f : Element → Except PyError (Int × β)) (l1 l2 : List Element)
    (acc m : List (Int × β)) (h : dictLoop f l1 acc = .ok m) :
    dictLoop f (l1 ++ l2) acc = dictLoop f l2 m := by
  rw [dictLoop_append, h]

/-- A loop segment whose elements all parse to keys other than `d`
succeeds and leaves the value at `d` unchanged. -/
theorem dictLoop_skip {β : Type} (f : Element → Except PyError (Int × β))
    (d : Int) :
    ∀ (l : List Element) (acc : List (Int × β)),
    (∀ x ∈ l, ∃ dx vx, f x = .ok (dx, vx) ∧ dx ≠ d) →
    ∃ m, dictLoop f l acc = .ok m ∧ alGet m d = alGet acc d := by
  intro l
  induction l with
  | nil => exact fun acc _ => ⟨acc, rfl, rfl⟩
  | cons x rest ih =>
    intro acc h
    obtain ⟨dx, vx, hfx, hne⟩ := h x (List.mem_cons_self x rest)
    obtain ⟨m, hm, hg⟩ :=
      ih (alInsert acc dx vx) (fun y hy => h y (List.mem_cons_of_mem _ hy))
    refine ⟨m, ?_, ?_⟩
    · simp only [dictLoop, hfx]
      exact hm
    · rw [hg, alGet_alInsert_ne _ _ _ _ (Ne.symm hne)]

/-- When two elements of the list parse to the same key `d` and every
other element parses to a different key, the loop succeeds and the
dictionary holds the LAST such element's value at `d`. -/
theorem dictLoop_last {β : Type} (f : Element → Except PyError (Int × β))
    (l1 l2 l3 : List Element) (c1 c2 : Element) (d : Int) (v1 v2 : β)
    (acc : List (Int × β))
    (h1 : f c1 = .ok (d, v1)) (h2 : f c2 = .ok (d, v2))
    (hrest : ∀ x, x ∈ l1 ∨ x ∈ l2 ∨ x ∈ l3 →
      ∃ dx vx, f x = .ok (dx, vx) ∧ dx ≠ d) :
    ∃ m, dictLoop f (l1 ++ c1 :: (l2 ++ c2 :: l3)) acc = .ok m ∧
      alGet m d = some v2 := by
  obtain ⟨m1, e1, _⟩ :=
    dictLoop_skip f d l1 acc (fun x hx => hrest x (Or.inl hx))
  obtain ⟨m2, e2, _⟩ :=
    dictLoop_skip f d l2 (alInsert m1 d v1)
      (fun x hx => hrest x (Or.inr (Or.inl hx)))
  obtain ⟨m3, e3, g3⟩ :=
    dictLoop_skip f d l3 (alInsert m2 d v2)
      (fun x hx => hrest x (Or.inr (Or.inr hx)))
  refine ⟨m3, ?_, ?_⟩
  · rw [dictLoop_append_ok f l1 _ acc m1 e1]
    simp only [dictLoop, h1]
    rw [dictLoop_append_ok f l2 _ _ m2 e2]
    simp only [dictLoop, h2]
    exact e3
  · rw [g3, alGet_alInsert_self]

/-- The frame loop can only fail with the `KeyError` for a frame's
missing `source`. -/
theorem framesLoop_error (rp : String) :
    ∀ (l : List Element) (acc : List String) (e : PyError),
    framesLoop rp l acc = .error e → e = .keyError "source" := by
  intro l
  induction l with
  | nil =>
    intro acc e h
    exact absurd h (by simp [framesLoop])
  | cons f rest ih =>
    intro acc e h
    unfold framesLoop at h
    split at h
    next e' heq =>
      injection h with h'
      subst h'
      unfold pyDGet at heq
      split at heq
      · exact absurd heq (by simp)
      · injection heq with h2
        exact h2.symm
    next src heq =>
      exact ih _ e h

/-- Subscripting a dictionary at a present key. -/
theorem pyDGet_some {β : Type} (d : List (String × β)) (k : String)
    (v : β) (h : alGet d k = some v) : pyDGet d k = .ok v := by
  unfold pyDGet
  rw [h]

/-- Subscripting a dictionary at an absent key. -/
theorem pyDGet_none {β : Type} (d : List (String × β)) (k : String)
    (h : alGet d k = none) : pyDGet d k = .error (.keyError k) := by
  unfold pyDGet
  rw [h]

/-- Out-of-range list indexing. -/
theorem pyIndex_oob {α : Type} (l : List α) (i : Nat)
    (h : l.length ≤ i) : pyIndex l i = .error .indexError := by
  unfold pyIndex
  rw [List.get?_eq_none.mpr h]

/-- Indexing a non-empty list at 0 yields its head. -/
theorem pyIndex_zero {α : Type} (a : α) (l : List α) :
    pyIndex (a :: l) 0 = .ok a := rfl

/-! ### Structural lemmas about the parsers -/

/-- Every successful `parse_object` copies the element's own attribute
dictionary into the result's `object` field (line 105). -/
theorem parse_object_object_attrib (xp : XmlEngine) (fs : FileSystem)
    (fuel : Nat) (obj : Element) (rp : String) (ad : Option AtlasDef)
    (d : ObjDef) (h : parse_object xp fs fuel obj rp ad = .ok d) :
    d.object = obj.attrib := by
  unfold parse_object at h
  split at h
  · exact absurd h (by simp)
  · split at h
    · exact absurd h (by simp)
    · split at h
      · split at h
        · exact absurd h (by simp)
        · injection h with h'
          subst h'
          rfl
      · split at h
        · split at h
          · exact absurd h (by simp)
          · injection h with h'
            subst h'
            rfl
        · split at h
          · exact absurd h (by simp)
          · exact absurd h (by simp)

/-- Anatomy of a successful dual-document recovery: the raw lines were
re-read, both slices were re-parsed, and every returned definition comes
from the `object` children of the synthetic combined document. -/
theorem parse_file_recover_shape (xp : XmlEngine) (fs : FileSystem)
    (fuel : Nat) (fn rp : String) (pos : Nat) (objs : List ObjDef)
    (h : parse_file_recover xp fs fuel fn rp pos = .ok objs) :
    ∃ lines doc ad doc2,
      fs fn = some lines ∧
      xp (pySliceTo lines ((pos : Int) - 2)) = .ok doc ∧
      parse_atlas doc.root rp = .ok ad ∧
      xp ("<objects>\n" ::
        (pySliceFrom lines ((pos : Int) - 2 + 1) ++ ["</objects>\n"])) =
        .ok doc2 ∧
      parse_objects_list xp fs fuel (doc2.root.findall "object") rp
        (some ad) = .ok objs := by
  unfold parse_file_recover at h
  split at h
  · exact absurd h (by simp)
  next lines hfs =>
    split at h
    next e heq => exact absurd h (by simp)
    next doc hxp =>
      split at h
      · exact absurd h (by simp)
      next piText hprev =>
        split at h
        next e heq => exact absurd h (by simp)
        next t hpt =>
          split at h
          · split at h
            next e heq => exact absurd h (by simp)
            next adv hpa =>
              split at h
              next e heq => exact absurd h (by simp)
              next doc2 hxp2 =>
                exact ⟨lines, doc, adv, doc2, hfs, hxp, hpa, hxp2, h⟩
          · exact absurd h (by simp)

/-! ### Claim theorems -/

/-- C1: For every well-formed single-document object file — the whole
file parses as one XML document whose root is an `object` element, and
the root's object definition parses — `parse_file` returns a sequence of
exactly one `ObjectDefinition`, and that definition's `id` equals the
`id` attribute of the file's root element. -/
theorem claim_c1_single_document (xp : XmlEngine) (fs : FileSystem)
    (fuel : Nat) (filename : String) (doc : XmlDocument) (d : ObjDef)
    (hparse : etreeParseFile xp fs filename = .ok doc)
    (hroot : doc.root.tag = "object")
    (hobj : parse_object xp fs fuel doc.root (ospDirname filename) none =
      .ok d) :
    parse_file xp fs fuel filename = .ok [d] ∧
    alGet d.object "id" = alGet doc.root.attrib "id" := by
  constructor
  · unfold parse_file parse_file_attempt
    simp only [hparse, hobj]
  · rw [parse_object_object_attrib xp fs fuel doc.root
      (ospDirname filename) none d hobj]

/-- Witness for C1: the concrete single-document sample. -/
theorem claim_c1_single_document_witness :
    parse_file singleXp singleFs 3 "/maps/single.xml" = .ok [singleDef] ∧
    alGet singleDef.object "id" = alGet singleRoot.attrib "id" :=
  claim_c1_single_document singleXp singleFs 3 "/maps/single.xml"
    { root := singleRoot, prev := none } singleDef rfl rfl rfl

/-- C7: For every non-empty list of animation elements, the resulting
animation kind is `single` if and only if the FIRST element of the list
carries an `atlas` attribute, and `multi` otherwise; elements after the
first are never inspected for the kind. -/
theorem claim_c7_kind_from_first_element (xp : XmlEngine)
    (fs : FileSystem) (fuel : Nat) (a : Element) (rest : List Element)
    (rp : String) (r : AnisDef)
    (h : parse_animations xp fs fuel (a :: rest) rp = .ok r) :
    (r.type = "single" ↔ (alGet a.attrib "atlas").isSome = true) ∧
    (r.type = "multi" ↔ (alGet a.attrib "atlas").isSome = false) := by
  unfold parse_animations at h
  simp only [pyIndex_zero] at h
  split at h
  next hA =>
    split at h
    · exact absurd h (by simp)
    next res heq =>
      injection h with h'
      subst h'
      simp_all
  next hA =>
    split at h
    · exact absurd h (by simp)
    next dirs heq =>
      injection h with h'
      subst h'
      simp_all

/-- Witness for C7: a first element carrying an `atlas` attribute gives
kind `single`. -/
theorem claim_c7_kind_from_first_element_witness :
    (w7Res.type = "single" ↔ (alGet w10Ani.attrib "atlas").isSome = true) ∧
    (w7Res.type = "multi" ↔ (alGet w10Ani.attrib "atlas").isSome = false) :=
  claim_c7_kind_from_first_element nullXp nullFs 1 w10Ani [] "/maps"
    w7Res rfl

/-- C8: For every inline (no `source` attribute) animation element whose
`id` attribute has fewer than 3 colon-separated segments,
`parse_animation` raises an error of the spec's `MalformedDefinition`
family (the code uses the builtin `IndexError` for the short id, or
`KeyError` for a frame with no `source`), and the error propagates
through `parse_animations` to the caller rather than being swallowed. -/
theorem claim_c8_short_id_malformed (xp : XmlEngine) (fs : FileSystem)
    (fuel : Nat) (ani : Element) (rp : String) (rest : List Element)
    (s : String)
    (hsrc : alGet ani.attrib "source" = none)
    (hid : alGet ani.attrib "id" = some s)
    (hlen : (pySplit s ':').length < 3) :
    ∃ e, parse_animation xp fs fuel ani rp = .error e ∧
      isMalformedDefinition e = true ∧
      (alGet ani.attrib "atlas" = none →
        parse_animations xp fs fuel (ani :: rest) rp = .error e) := by
  cases hfl : framesLoop rp (ani.findall "frame") [] with
  | error e =>
    have hpa : parse_animation xp fs fuel ani rp = .error e := by
      unfold parse_animation
      simp only [hsrc, hfl]
    have hmal : isMalformedDefinition e = true := by
      rw [framesLoop_error rp _ _ e hfl]
      rfl
    refine ⟨e, hpa, hmal, fun hatlas => ?_⟩
    unfold parse_animations
    simp only [pyIndex_zero, hatlas, Option.isSome_none, Bool.false_eq_true,
      if_false, dictLoop]
    unfold parse_multi_entry
    simp only [hpa]
  | ok frames =>
    have hpa : parse_animation xp fs fuel ani rp = .error .indexError := by
      unfold parse_animation
      simp only [hsrc, hfl, pyDGet_some _ _ _ hid,
        pyIndex_oob (pySplit s ':') 2 (by omega)]
    refine ⟨.indexError, hpa, rfl, fun hatlas => ?_⟩
    unfold parse_animations
    simp only [pyIndex_zero, hatlas, Option.isSome_none, Bool.false_eq_true,
      if_false, dictLoop]
    unfold parse_multi_entry
    simp only [hpa]

/-- Witness for C8: an inline animation with id `walk:0` fails with a
MalformedDefinition-family error that propagates. -/
theorem claim_c8_short_id_malformed_witness :
    ∃ e, parse_animation nullXp nullFs 1 w8Ani "/maps" = .error e ∧
      isMalformedDefinition e = true ∧
      (alGet w8Ani.attrib "atlas" = none →
        parse_animations nullXp nullFs 1 (w8Ani :: []) "/maps" =
          .error e) :=
  claim_c8_short_id_malformed nullXp nullFs 1 w8Ani "/maps" [] "walk:0"
    rfl rfl (by decide)

/-- C9: For every action element with zero animation children,
`parse_actions` fails with Python's out-of-range `IndexError`, because
`parse_animations` unconditionally subscripts `animations[0]` of the
empty list — it neither returns an empty mapping nor raises an error of
the documented taxonomy. -/
theorem claim_c9_empty_action_index_error (xp : XmlEngine)
    (fs : FileSystem) (fuel : Nat) (a : Element) (rest : List Element)
    (rp : String) (h : a.findall "animation" = []) :
    parse_actions xp fs fuel (a :: rest) rp = .error .indexError := by
  unfold parse_actions actionsLoop
  rw [h]
  rfl

/-- Witness for C9: an action with no animation children. -/
theorem claim_c9_empty_action_index_error_witness :
    parse_actions nullXp nullFs 1 (w9Action :: []) "/maps" =
      .error .indexError :=
  claim_c9_empty_action_index_error nullXp nullFs 1 w9Action [] "/maps"
    rfl

/-- C2: For every dual-document file — the whole-file parse fails with a
syntax error at `pos`, the slice before the error line parses as an
atlas document declaring two images behind a `type="atlas"` processing
instruction, and the wrapped remainder parses as an objects fragment
with two `object` children whose definitions parse — `parse_file`
returns a sequence of exactly two `ObjectDefinition`s. -/
theorem claim_c2_dual_document (xp : XmlEngine) (fs : FileSystem)
    (fuel : Nat) (filename : String) (lines : List String) (pos : Nat)
    (atlasRoot : Element) (piText : String) (doc2 : XmlDocument)
    (i1 i2 o1 o2 : Element) (ad : AtlasDef) (d1 d2 : ObjDef)
    (hfs : fs filename = some lines)
    (hxp : xp lines = .error (.xmlSyntaxError pos))
    (hxp1 : xp (pySliceTo lines ((pos : Int) - 2)) =
      .ok { root := atlasRoot, prev := some piText })
    (hpi : pi_file_type piText = .ok "atlas")
    (himgs : atlasRoot.findall "image" = [i1, i2])
    (hpa : parse_atlas atlasRoot (ospDirname filename) = .ok ad)
    (hxp2 : xp ("<objects>\n" ::
      (pySliceFrom lines ((pos : Int) - 2 + 1) ++ ["</objects>\n"])) =
      .ok doc2)
    (hobjs : doc2.root.findall "object" = [o1, o2])
    (ho1 : parse_object xp fs fuel o1 (ospDirname filename) (some ad) =
      .ok d1)
    (ho2 : parse_object xp fs fuel o2 (ospDirname filename) (some ad) =
      .ok d2) :
    parse_file xp fs fuel filename = .ok [d1, d2] := by
  unfold parse_file parse_file_attempt etreeParseFile
  simp only [hfs, hxp]
  unfold parse_file_recover
  simp only [hfs, hxp1, hpi]
  simp only [if_true, hpa, hxp2, hobjs, parse_objects_list, ho1, ho2]

/-- Witness for C2: the concrete dual-document sample yields exactly its
two object definitions. -/
theorem claim_c2_dual_document_witness :
    parse_file dualXp dualFs 3 "/maps/dual.xml" = .ok [dualDef1, dualDef2] :=
  claim_c2_dual_document dualXp dualFs 3 "/maps/dual.xml" dualLines 7
    dualAtlasRoot "type=\"atlas\"" { root := dualObjectsRoot, prev := none }
    dualImg1 dualImg2 dualObj1 dualObj2 dualAtlasDef dualDef1 dualDef2
    rfl rfl rfl rfl rfl rfl rfl rfl rfl rfl

/-- C3 counterexample: a file accepted through dual-document recovery
returns a non-empty sequence although the direct parse of the whole
file failed — so its first element is NOT "the plain document's
ObjectDefinition" (no plain document was ever parsed successfully);
every element comes from the combined atlas+objects document. -/
theorem claim_c3_counterexample :
    parse_file dualXp dualFs 3 "/maps/dual.xml" =
      .ok [dualDef1, dualDef2] ∧
    etreeParseFile dualXp dualFs "/maps/dual.xml" =
      .error (.xmlSyntaxError 7) :=
  ⟨rfl, rfl⟩

/-- C3 (amended): when the direct parse succeeds the returned sequence
is exactly the one plain document's object; when dual-document recovery
runs, the entire returned sequence is produced from the `object`
children of the combined atlas+objects document (the failed plain parse
contributes no element). -/
theorem claim_c3_first_element_origin (xp : XmlEngine) (fs : FileSystem)
    (fuel : Nat) (filename : String) :
    (∀ doc d, etreeParseFile xp fs filename = .ok doc →
      parse_object xp fs fuel doc.root (ospDirname filename) none =
        .ok d →
      parse_file xp fs fuel filename = .ok [d]) ∧
    (∀ pos objs,
      parse_file_attempt xp fs fuel filename (ospDirname filename) =
        .error (.xmlSyntaxError pos) →
      parse_file xp fs fuel filename = .ok objs →
      ∃ lines doc ad doc2,
        fs filename = some lines ∧
        xp (pySliceTo lines ((pos : Int) - 2)) = .ok doc ∧
        parse_atlas doc.root (ospDirname filename) = .ok ad ∧
        xp ("<objects>\n" :: (pySliceFrom lines ((pos : Int) - 2 + 1) ++
          ["</objects>\n"])) = .ok doc2 ∧
        parse_objects_list xp fs fuel (doc2.root.findall "object")
          (ospDirname filename) (some ad) = .ok objs) := by
  constructor
  · intro doc d hparse hobj
    unfold parse_file parse_file_attempt
    simp only [hparse, hobj]
  · intro pos objs hatt hok
    have hrec : parse_file_recover xp fs fuel filename
        (ospDirname filename) pos = .ok objs := by
      unfold parse_file at hok
      simp only [hatt] at hok
      exact hok
    exact parse_file_recover_shape xp fs fuel filename
      (ospDirname filename) pos objs hrec

/-- Witness for the amended C3: both branches at concrete files. -/
theorem claim_c3_first_element_origin_witness :
    parse_file singleXp singleFs 3 "/maps/single.xml" = .ok [singleDef] ∧
    (∃ lines doc ad doc2,
      dualFs "/maps/dual.xml" = some lines ∧
      dualXp (pySliceTo lines ((7 : Int) - 2)) = .ok doc ∧
      parse_atlas doc.root (ospDirname "/maps/dual.xml") = .ok ad ∧
      dualXp ("<objects>\n" :: (pySliceFrom lines ((7 : Int) - 2 + 1) ++
        ["</objects>\n"])) = .ok doc2 ∧
      parse_objects_list dualXp dualFs 3 (doc2.root.findall "object")
        (ospDirname "/maps/dual.xml") (some ad) =
        .ok [dualDef1, dualDef2]) :=
  ⟨(claim_c3_first_element_origin singleXp singleFs 3 "/maps/single.xml").1
      { root := singleRoot, prev := none } singleDef rfl rfl,
   (claim_c3_first_element_origin dualXp dualFs 3 "/maps/dual.xml").2
      7 [dualDef1, dualDef2] rfl rfl⟩

/-- C4 counterexample: the whole-file XML parse SUCCEEDS (the very first
parse attempt has no well-formedness failure), yet the `XMLSyntaxError`
raised by the nested `etree.parse` of a redirected animation file inside
`parse_object` is caught by `parse_file`'s handler; recovery runs on the
object file's own lines and the call returns an empty list instead of
re-raising that nested error. -/
theorem claim_c4_counterexample :
    etreeParseFile trickXp trickFs "/maps/trick.xml" =
      .ok { root := trickRoot, prev := some "type=\"atlas\"" } ∧
    parse_object trickXp trickFs 3 trickRoot "/maps" none =
      .error (.xmlSyntaxError 9) ∧
    parse_file trickXp trickFs 3 "/maps/trick.xml" = .ok [] :=
  ⟨rfl, rfl, rfl⟩

/-- C4 (amended): when recovery is invoked and the processing
instruction before the recovered first document does not declare type
`atlas`, `parse_file` fails with the Unexpected-file-format
`RuntimeError`; recovery is attempted for ANY `XMLSyntaxError` escaping
the try block — whether from the whole-file parse or from a nested
animation-file parse inside `parse_object` — and every error that is
not an `XMLSyntaxError` is re-raised unchanged. -/
theorem claim_c4_recovery_conditions (xp : XmlEngine) (fs : FileSystem)
    (fuel : Nat) (filename : String) :
    (∀ e, parse_file_attempt xp fs fuel filename (ospDirname filename) =
        .error e →
      ((∀ pos, e ≠ .xmlSyntaxError pos) →
        parse_file xp fs fuel filename = .error e) ∧
      (∀ pos, e = .xmlSyntaxError pos →
        parse_file xp fs fuel filename =
          parse_file_recover xp fs fuel filename (ospDirname filename)
            pos)) ∧
    (∀ pos lines atlasRoot piText t,
      parse_file_attempt xp fs fuel filename (ospDirname filename) =
        .error (.xmlSyntaxError pos) →
      fs filename = some lines →
      xp (pySliceTo lines ((pos : Int) - 2)) =
        .ok { root := atlasRoot, prev := some piText } →
      pi_file_type piText = .ok t →
      t ≠ "atlas" →
      parse_file xp fs fuel filename =
        .error (.runtimeError
          ("Unexpected file format '" ++ filename ++ "'"))) := by
  constructor
  · intro e hatt
    constructor
    · intro hne
      unfold parse_file
      rw [hatt]
      cases e with
      | xmlSyntaxError pos => exact absurd rfl (hne pos)
      | keyError k => rfl
      | valueError s => rfl
      | indexError => rfl
      | attributeError => rfl
      | runtimeError m => rfl
      | ioError => rfl
      | recursionError => rfl
    · intro pos hpos
      subst hpos
      unfold parse_file
      rw [hatt]
  · intro pos lines atlasRoot piText t hatt hfs hxp1 hpt hne
    unfold parse_file
    rw [hatt]
    show parse_file_recover xp fs fuel filename (ospDirname filename)
      pos = _
    unfold parse_file_recover
    simp only [hfs, hxp1, hpt]
    rw [if_neg hne]

/-- Witness for the amended C4: the wrong processing-instruction type
fails with the Unexpected-file-format error, and a non-syntax error
(here a missing file) is re-raised unchanged. -/
theorem claim_c4_recovery_conditions_witness :
    parse_file badpiXp badpiFs 3 "/maps/badpi.xml" =
      .error (.runtimeError "Unexpected file format '/maps/badpi.xml'") ∧
    parse_file nullXp nullFs 0 "/maps/gone.xml" = .error .ioError :=
  ⟨(claim_c4_recovery_conditions badpiXp badpiFs 3 "/maps/badpi.xml").2
      5 badpiLines badpiInner "type=\"object\"" "object" rfl rfl rfl rfl
      (by decide),
   (((claim_c4_recovery_conditions nullXp nullFs 0 "/maps/gone.xml").1
      .ioError rfl).1 (fun pos h => PyError.noConfusion h))⟩

/-- C5 counterexample: an object element whose `static` attribute is
`"2"` (neither `"0"` nor `"1"`) but which has NO child elements makes
`parse_object` fail with Python's `IndexError` — raised by `obj[0]`
while building the error message — not with the fatal
`UnsupportedObjectKind` `RuntimeError` the claim requires, so no error
message naming any tag is produced. -/
theorem claim_c5_counterexample :
    parse_object nullXp nullFs 1 c5Childless "/maps" none =
      .error .indexError := rfl

/-- C5 (amended): for every object element whose `static` attribute
parses as a Python integer other than 0 and 1 AND which has at least
one child element, `parse_object` raises the fatal `RuntimeError` whose
message names the tag of the element's FIRST CHILD, and no partial
object definition is produced.  (A childless such element fails with
`IndexError` instead; a `static` value that is not an integer literal
fails earlier with `ValueError`; a non-canonical integer spelling of 0
or 1, such as `"01"`, is accepted as that value.) -/
theorem claim_c5_unsupported_static (xp : XmlEngine) (fs : FileSystem)
    (fuel : Nat) (obj : Element) (rp : String) (ad : Option AtlasDef)
    (s : String) (v : Int) (c : Element) (rest : List Element)
    (hstatic : alGet obj.attrib "static" = some s)
    (hint : pyInt s = .ok v) (h0 : v ≠ 0) (h1 : v ≠ 1)
    (hchild : obj.children = c :: rest) :
    parse_object xp fs fuel obj rp ad =
      .error (.runtimeError
        ("Don't know how to handle '" ++ c.tag ++ "'")) := by
  unfold parse_object
  simp only [pyDGet_some _ _ _ hstatic, hint, if_neg h0, if_neg h1,
    hchild, pyIndex_zero]

/-- Witness for the amended C5: `static="2"` with an `image` child. -/
theorem claim_c5_unsupported_static_witness :
    parse_object nullXp nullFs 1 c5WithChild "/maps" none =
      .error (.runtimeError "Don't know how to handle 'image'") :=
  claim_c5_unsupported_static nullXp nullFs 1 c5WithChild "/maps" none
    "2" 2 (.mk "image" [("source", "a.png")] []) [] rfl rfl
    (by decide) (by decide) rfl

/-- C6: for a static object image whose `source` matches a key of the
supplied atlas index, the produced image dictionary is marked with
origin type `atlas`, the atlas entry's attributes are merged into it,
and its `source` is rewritten to the atlas element's own logical `name`
resolved to an absolute path (not the original per-image source); an
image whose `source` matches no atlas key is marked type `image` and
its `source` is resolved directly. -/
theorem claim_c6_atlas_reconciliation (rp : String) (ad : AtlasDef)
    (img aimg : Element) (s nm : String) (d : Int)
    (idef : List (String × String)) :
    (alGet img.attrib "source" = some s →
     alGet ad.images s = some aimg →
     alGet ad.atlas.attrib "name" = some nm →
     parse_image_def rp (some ad) img = .ok (d, idef) →
     alGet idef "type" = some "atlas" ∧
     alGet idef "source" = some (ospAbspath (ospJoin rp nm)) ∧
     ((aimg.attrib.map Prod.fst).Nodup →
      ∀ k v, alGet aimg.attrib k = some v → k ≠ "source" → k ≠ "type" →
        alGet idef k = some v)) ∧
    (alGet img.attrib "source" = some s →
     alGet ad.images s = none →
     parse_image_def rp (some ad) img = .ok (d, idef) →
     alGet idef "type" = some "image" ∧
     alGet idef "source" = some (ospAbspath (ospJoin rp s))) := by
  constructor
  · intro hsrc hlook hname h
    unfold parse_image_def reconcile_image at h
    simp only [pyDGet_some _ _ _ hsrc, hlook,
      pyDGet_some _ _ _ hname] at h
    have hM : pyDGet (alInsert
        (alInsert (dUpdate img.attrib aimg.attrib) "type" "atlas")
        "source" nm) "source" = .ok nm :=
      pyDGet_some _ _ _ (alGet_alInsert_self _ _ _)
    simp only [hM] at h
    split at h
    · exact absurd h (by simp)
    next dstr hdir =>
      split at h
      · exact absurd h (by simp)
      next dv hdv =>
        injection h with h'
        rw [Prod.ext_iff] at h'
        obtain ⟨hd, hN⟩ := h'
        subst hN
        refine ⟨?_, ?_, ?_⟩
        · rw [alGet_alInsert_ne _ _ _ _ (by decide),
            alGet_alInsert_ne _ _ _ _ (by decide),
            alGet_alInsert_self]
        · rw [alGet_alInsert_self]
        · intro hnd k v hk hks hkt
          rw [alGet_alInsert_ne _ _ _ _ hks,
            alGet_alInsert_ne _ _ _ _ hks,
            alGet_alInsert_ne _ _ _ _ hkt,
            alGet_dUpdate aimg.attrib hnd img.attrib k, hk]
  · intro hsrc hlook h
    unfold parse_image_def reconcile_image at h
    simp only [pyDGet_some _ _ _ hsrc, hlook] at h
    have hM : pyDGet (alInsert img.attrib "type" "image") "source" =
        .ok s := by
      unfold pyDGet
      rw [alGet_alInsert_ne _ _ _ _ (by decide), hsrc]
    simp only [hM] at h
    split at h
    · exact absurd h (by simp)
    next dstr hdir =>
      split at h
      · exact absurd h (by simp)
      next dv hdv =>
        injection h with h'
        rw [Prod.ext_iff] at h'
        obtain ⟨hd, hN⟩ := h'
        subst hN
        constructor
        · rw [alGet_alInsert_ne _ _ _ _ (by decide),
            alGet_alInsert_self]
        · rw [alGet_alInsert_self]

/-- Witness for C6: both reconciliation branches at concrete images of
the dual sample. -/
theorem claim_c6_atlas_reconciliation_witness :
    (alGet c6IDef "type" = some "atlas" ∧
     alGet c6IDef "source" =
       some (ospAbspath (ospJoin "/maps" "sheet.png")) ∧
     ((dualImg1.attrib.map Prod.fst).Nodup →
      ∀ k v, alGet dualImg1.attrib k = some v → k ≠ "source" →
        k ≠ "type" → alGet c6IDef k = some v)) ∧
    (alGet [("source", "/maps/other.png"), ("direction", "0"),
        ("type", "image")] "type" = some "image" ∧
     alGet [("source", "/maps/other.png"), ("direction", "0"),
        ("type", "image")] "source" =
       some (ospAbspath (ospJoin "/maps" "other.png"))) :=
  ⟨(claim_c6_atlas_reconciliation "/maps" dualAtlasDef c6Img dualImg1
      "img1.png" "sheet.png" 0 c6IDef).1 rfl rfl rfl rfl,
   (claim_c6_atlas_reconciliation "/maps" dualAtlasDef
      (.mk "image" [("source", "other.png"), ("direction", "0")] [])
      dualImg1 "other.png" "sheet.png" 0
      [("source", "/maps/other.png"), ("direction", "0"),
       ("type", "image")]).2 rfl rfl rfl⟩

/-- C10: all direction-keyed mappings are built by overwriting — in the
static-image loop of `parse_object`, the multi-frame loop of
`parse_animations`, and the direction loop of `parse_animation_atlas`,
when two child elements carry the same integer direction the resulting
mapping holds one entry for that integer, namely the definition of the
LAST such child in document order. -/
theorem claim_c10_direction_overwrite :
    (∀ (xp : XmlEngine) (fs : FileSystem) (fuel : Nat) (rp : String)
       (ad : Option AtlasDef) (obj : Element) (l1 l2 l3 : List Element)
       (c1 c2 : Element) (d : Int) (v1 v2 : List (String × String)),
      alGet obj.attrib "static" = some "1" →
      obj.findall "image" = l1 ++ c1 :: (l2 ++ c2 :: l3) →
      parse_image_def rp ad c1 = .ok (d, v1) →
      parse_image_def rp ad c2 = .ok (d, v2) →
      (∀ x, x ∈ l1 ∨ x ∈ l2 ∨ x ∈ l3 →
        ∃ dx vx, parse_image_def rp ad x = .ok (dx, vx) ∧ dx ≠ d) →
      ∃ m, parse_object xp fs fuel obj rp ad =
          .ok { object := obj.attrib, actions := none,
                directions := some m } ∧
        alGet m d = some v2) ∧
    (∀ (xp : XmlEngine) (fs : FileSystem) (fuel : Nat) (rp : String)
       (l1 l2 l3 : List Element) (c1 c2 h0 : Element) (t : List Element)
       (d : Int) (v1 v2 : AniEntry),
      l1 ++ c1 :: (l2 ++ c2 :: l3) = h0 :: t →
      alGet h0.attrib "atlas" = none →
      parse_multi_entry xp fs fuel rp c1 = .ok (d, v1) →
      parse_multi_entry xp fs fuel rp c2 = .ok (d, v2) →
      (∀ x, x ∈ l1 ∨ x ∈ l2 ∨ x ∈ l3 →
        ∃ dx vx, parse_multi_entry xp fs fuel rp x = .ok (dx, vx) ∧
          dx ≠ d) →
      ∃ m, parse_animations xp fs fuel (l1 ++ c1 :: (l2 ++ c2 :: l3)) rp =
          .ok { type := "multi", atlas := none, directions := m } ∧
        alGet m d = some v2) ∧
    (∀ (rp : String) (ani : Element) (a w ht : String)
       (l1 l2 l3 : List Element) (c1 c2 : Element) (d : Int)
       (v1 v2 : AniEntry),
      alGet ani.attrib "atlas" = some a →
      alGet ani.attrib "width" = some w →
      alGet ani.attrib "height" = some ht →
      ani.findall "direction" = l1 ++ c1 :: (l2 ++ c2 :: l3) →
      parse_atlas_direction c1 = .ok (d, v1) →
      parse_atlas_direction c2 = .ok (d, v2) →
      (∀ x, x ∈ l1 ∨ x ∈ l2 ∨ x ∈ l3 →
        ∃ dx vx, parse_atlas_direction x = .ok (dx, vx) ∧ dx ≠ d) →
      ∃ m, parse_animation_atlas ani rp =
          .ok { atlas := { image := ospAbspath (ospJoin rp a),
                           width := w, height := ht },
                directions := m } ∧
        alGet m d = some v2) := by
  refine ⟨?_, ?_, ?_⟩
  · intro xp fs fuel rp ad obj l1 l2 l3 c1 c2 d v1 v2 hstatic hfind
      h1 h2 hrest
    obtain ⟨m, hm, hg⟩ := dictLoop_last (parse_image_def rp ad)
      l1 l2 l3 c1 c2 d v1 v2 [] h1 h2 hrest
    refine ⟨m, ?_, hg⟩
    unfold parse_object
    simp only [pyDGet_some _ _ _ hstatic,
      show pyInt "1" = Except.ok 1 from rfl, hfind]
    simp only [if_true, hm]
    rw [if_neg (by decide)]
  · intro xp fs fuel rp l1 l2 l3 c1 c2 h0 t d v1 v2 hL hatlas h1 h2 hrest
    obtain ⟨m, hm, hg⟩ := dictLoop_last (parse_multi_entry xp fs fuel rp)
      l1 l2 l3 c1 c2 d v1 v2 [] h1 h2 hrest
    refine ⟨m, ?_, hg⟩
    have hidx : pyIndex (l1 ++ c1 :: (l2 ++ c2 :: l3)) 0 = .ok h0 := by
      rw [hL]
      rfl
    unfold parse_animations
    simp only [hidx]
    rw [if_neg (by rw [hatlas]; simp), hm]
  · intro rp ani a w ht l1 l2 l3 c1 c2 d v1 v2 hA hW hH hfind h1 h2 hrest
    obtain ⟨m, hm, hg⟩ := dictLoop_last parse_atlas_direction
      l1 l2 l3 c1 c2 d v1 v2 [] h1 h2 hrest
    refine ⟨m, ?_, hg⟩
    unfold parse_animation_atlas
    simp only [pyDGet_some _ _ _ hA, pyDGet_some _ _ _ hW,
      pyDGet_some _ _ _ hH, hfind, hm]

/-- Witness for C10: two `direction` children with the same `dir`
attribute; the mapping keeps the second child's delay and frame count. -/
theorem claim_c10_direction_overwrite_witness :
    ∃ m, parse_animation_atlas w10Ani "/maps" =
        .ok { atlas := { image := ospAbspath (ospJoin "/maps" "run.png"),
                         width := "32", height := "32" },
              directions := m } ∧
      alGet m 1 = some (.atlasDirEntry "70" "6") :=
  claim_c10_direction_overwrite.2.2 "/maps" w10Ani "run.png" "32" "32"
    [] [] [] w10Dir1 w10Dir2 1 (.atlasDirEntry "50" "4")
    (.atlasDirEntry "70" "6") rfl rfl rfl rfl rfl rfl
    (fun x hx => absurd hx (by simp))

end FifeObjectToolbar
